import Mathlib

/-!
# AutoRange relay pipeline — shallow embedding and verification

A shallow embedding of the resilient relay pipeline of the AutoRange
extension: the content-script ChannelManager (persistent port with a
bounded message queue and capped exponential reconnect backoff) and the
background HubPublisher (per-room authenticated socket, bounded outbound
queue, durable retry alarm).  Sources: `src/unnamed/part_000` (content
script) and `src/publisher/src/js/background.js` (background).

Asynchronous boundary outcomes (token-fetch result, socket send
success/failure, serialization success/failure, the random UUID stream)
are passed in as explicit oracle parameters; each operation is the
synchronous state transformation the JavaScript performs given those
outcomes.  JavaScript numbers only occur here as small integers and as
the channel backoff values `2000 * 1.5^k`, which are exact dyadic
rationals in IEEE doubles for every exponent the 30000 ms cap leaves
relevant, so the channel delay is modelled exactly in `ℚ` and the hub
delay in `ℕ`.
-/

namespace AutoRange

/-! ## Configuration constants (from the sources) -/

/-- `MAX_RETRIES` in background.js. -/
def MAX_RETRIES : Nat := 100

/-- `INITIAL_BACKOFF_MS` in background.js. -/
def INITIAL_BACKOFF_MS : Nat := 1000

/-- `MAX_BACKOFF_MS` in background.js. -/
def MAX_BACKOFF_MS : Nat := 10000

/-- `AUTH_ERROR_BACKOFF_MS` in background.js (fixed 401 cooldown). -/
def AUTH_ERROR_BACKOFF_MS : Nat := 60000

/-- `QUEUE_CAP` in background.js (hub outbound queue capacity). -/
def QUEUE_CAP : Nat := 100

/-- `RECONNECT_INTERVAL_MS` in the content script. -/
def RECONNECT_INTERVAL_MS : ℚ := 2000

/-- `MAX_RECONNECT_ATTEMPTS` in the content script. -/
def MAX_RECONNECT_ATTEMPTS : Nat := 50

/-- `MESSAGE_QUEUE_CAP` in the content script (channel queue capacity). -/
def MESSAGE_QUEUE_CAP : Nat := 20

/-! ## Bounded queues

Both queues use the same push-then-evict-oldest pattern:
`queue.push(msg); if (queue.length > CAP) queue.shift();`. -/

/-- The shared push/evict pattern, parameterised by the capacity. -/
def pushEvict (cap : Nat) (queue : List μ) (msg : μ) : List μ :=
  let q := queue ++ [msg]
  if cap < q.length then q.tail else q

/-- `enqueueMessage` from the content script (capacity 20). -/
def enqueueMessage (messageQueue : List μ) (msg : μ) : List μ :=
  let q := messageQueue ++ [msg]
  if MESSAGE_QUEUE_CAP < q.length then q.tail else q

theorem enqueueMessage_eq_pushEvict (q : List μ) (m : μ) :
    enqueueMessage q m = pushEvict MESSAGE_QUEUE_CAP q m := rfl

/-! ### Generic facts about `pushEvict` -/

theorem pushEvict_length_le {cap : Nat} {q : List μ} (m : μ)
    (h : q.length ≤ cap) : (pushEvict cap q m).length ≤ cap := by
  unfold pushEvict
  by_cases hc : cap < (q ++ [m]).length
  · simp only [hc, if_true]
    simp only [List.length_tail, List.length_append, List.length_singleton]
    omega
  · simp only [hc, if_false]
    simp only [List.length_append, List.length_singleton] at hc ⊢
    omega

theorem pushEvict_eq_drop {cap : Nat} {q : List μ} (m : μ) (h : q.length ≤ cap) :
    pushEvict cap q m = (q ++ [m]).drop (q.length + 1 - cap) := by
  unfold pushEvict
  by_cases hc : cap < (q ++ [m]).length
  · simp only [hc, if_true]
    have hlen : (q ++ [m]).length = q.length + 1 := by simp
    have hq : q.length = cap := by omega
    have h1 : q.length + 1 - cap = 1 := by omega
    rw [h1, ← List.drop_one]
  · simp only [hc, if_false]
    have hlen : (q ++ [m]).length = q.length + 1 := by simp
    have h0 : q.length + 1 - cap = 0 := by omega
    rw [h0, List.drop_zero]

theorem foldl_pushEvict (cap : Nat) (msgs : List μ) :
    ∀ q : List μ, q.length ≤ cap →
      msgs.foldl (pushEvict cap) q =
        (q ++ msgs).drop (q.length + msgs.length - cap) := by
  induction msgs with
  | nil =>
      intro q hq
      simp only [List.foldl_nil, List.append_nil, List.length_nil, Nat.add_zero]
      rw [Nat.sub_eq_zero_of_le hq, List.drop_zero]
  | cons m ms ih =>
      intro q hq
      rw [List.foldl_cons]
      by_cases hlt : q.length < cap
      · have hcond : ¬ cap < (q ++ [m]).length := by
          simp only [List.length_append, List.length_singleton]
          omega
        have hstep : pushEvict cap q m = q ++ [m] := by
          simp only [pushEvict]
          rw [if_neg hcond]
        rw [hstep, ih (q ++ [m])
          (by simp only [List.length_append, List.length_singleton]; omega)]
        have harr : q ++ m :: ms = (q ++ [m]) ++ ms := by simp
        rw [harr]
        congr 1
        simp only [List.length_append, List.length_singleton, List.length_cons, List.length_nil]
        omega
      · have hq' : q.length = cap := by omega
        have hcond : cap < (q ++ [m]).length := by
          simp only [List.length_append, List.length_singleton]
          omega
        have hstep : pushEvict cap q m = (q ++ [m]).tail := by
          simp only [pushEvict]
          rw [if_pos hcond]
        rw [hstep, ih ((q ++ [m]).tail)
          (by simp only [List.length_tail, List.length_append, List.length_singleton]; omega)]
        have hlen : (q ++ [m]).tail.length = cap := by
          simp only [List.length_tail, List.length_append, List.length_singleton]
          omega
        rw [hlen]
        have htail : (q ++ [m]).tail ++ ms = ((q ++ [m]) ++ ms).tail :=
          (List.tail_append_of_ne_nil (by simp)).symm
        have harr : q ++ m :: ms = (q ++ [m]) ++ ms := by simp
        rw [harr, htail, ← List.drop_one, List.drop_drop]
        congr 1
        simp only [List.length_append, List.length_singleton, List.length_cons, List.length_nil]
        omega

theorem foldl_pushEvict_nil (cap : Nat) (msgs : List μ) :
    msgs.foldl (pushEvict cap) [] = msgs.drop (msgs.length - cap) := by
  have := foldl_pushEvict cap msgs [] (by simp)
  simpa using this

theorem foldl_pushEvict_length_le (cap : Nat) (msgs : List μ) (q : List μ)
    (hq : q.length ≤ cap) : (msgs.foldl (pushEvict cap) q).length ≤ cap := by
  induction msgs generalizing q with
  | nil => simpa using hq
  | cons m ms ih =>
      rw [List.foldl_cons]
      exact ih _ (pushEvict_length_le m hq)

/-! ## Flushing

Both `flushMessageQueue` (content script) and `HubPublisher.flushQueue`
(background) run the same loop: while the queue is nonempty and the link
is up, shift the head, try to transmit it, and on a transmit exception
unshift it back and break.  The transmit outcomes are an oracle
`sendOk : Nat → Bool` indexed by the number of sends attempted so far in
this flush.  The loop returns the list of transmitted messages (in send
order) and the remaining queue. -/

def flushLoop (sendOk : Nat → Bool) : Nat → List μ → List μ × List μ
  | _, [] => ([], [])
  | k, m :: rest =>
      if sendOk k then
        let r := flushLoop sendOk (k + 1) rest
        (m :: r.1, r.2)
      else ([], m :: rest)

theorem flushLoop_spec (sendOk : Nat → Bool) (q : List μ) :
    ∀ k : Nat, ∃ j, j ≤ q.length ∧
      flushLoop sendOk k q = (q.take j, q.drop j) ∧
      (∀ i < j, sendOk (k + i) = true) ∧
      (j < q.length → sendOk (k + j) = false) := by
  induction q with
  | nil =>
      intro k
      exact ⟨0, Nat.le_refl 0, rfl, fun i hi => absurd hi (Nat.not_lt_zero i),
        fun h => absurd h (Nat.lt_irrefl 0)⟩
  | cons m rest ih =>
      intro k
      by_cases hk : sendOk k = true
      · obtain ⟨j, hj, heq, hsucc, hfail⟩ := ih (k + 1)
        refine ⟨j + 1, by simpa using Nat.succ_le_succ hj, ?_, ?_, ?_⟩
        · simp only [flushLoop, hk, if_true, heq]
          simp
        · intro i hi
          cases i with
          | zero => simpa using hk
          | succ i' =>
              have : i' < j := by omega
              have := hsucc i' this
              simpa [Nat.add_comm, Nat.add_assoc, Nat.add_left_comm] using this
        · intro h
          have hjlt : j < rest.length := by simpa using Nat.lt_of_succ_lt_succ h
          have := hfail hjlt
          simpa [Nat.add_comm, Nat.add_assoc, Nat.add_left_comm] using this
      · refine ⟨0, Nat.zero_le _, ?_, fun i hi => absurd hi (Nat.not_lt_zero i), fun _ => ?_⟩
        · simp only [flushLoop, hk, if_false]
          simp
        · simpa using hk

/-! ## HubPublisher (background.js) -/

/-- WebSocket ready states as checked by background.js. -/
inductive ReadyState where
  | Connecting
  | Open
  | Closing
  | Closed
  deriving DecidableEq, Repr

/-- A hub socket.  `oncloseRoom` is the `roomId` captured by the
`onclose` closure installed in `connect`; `none` means the handler was
detached (`this.ws.onclose = null` in `disconnect`). -/
structure Sock where
  readyState : ReadyState
  oncloseRoom : Option String
  deriving DecidableEq, Repr

/-- The mutable fields of the `HubPublisher` instance, plus the single
named retry alarm (`chrome.alarms` with the fixed key
`RETRY_ALARM_NAME`); `alarm = some d` means an alarm is pending with
delay `d` ms.  The message type is a parameter. -/
structure HubState (μ : Type) where
  ws : Option Sock
  queue : List μ
  retryCount : Nat
  currentRoom : Option String
  isConnecting : Bool
  authErrorBackoff : Bool
  alarm : Option Nat
  deriving DecidableEq, Repr

/-- Outcome of `getPublisherId` + `fetchHubToken` inside `connect`:
a token, a 401 (`isAuthError`), or any other failure. -/
inductive TokenResult where
  | ok (token : String)
  | authError
  | otherError
  deriving DecidableEq, Repr

namespace HubPublisher

/-- The `HubPublisher` constructor state (no alarm pending). -/
def init : HubState μ :=
  { ws := none, queue := [], retryCount := 0, currentRoom := none,
    isConnecting := false, authErrorBackoff := false, alarm := none }

/-- The exponential backoff expression in `scheduleRetry`:
`Math.min(INITIAL_BACKOFF_MS * Math.pow(2, retryCount - 1), MAX_BACKOFF_MS)`. -/
def hubBackoff (retryCount : Nat) : Nat :=
  min (INITIAL_BACKOFF_MS * 2 ^ (retryCount - 1)) MAX_BACKOFF_MS

/-- `clearRetryAlarm`. -/
def clearRetryAlarm (s : HubState μ) : HubState μ :=
  { s with alarm := none }

/-- `scheduleRetry(roomId, overrideBackoff)`.  The `roomId` argument is
unused by the source body (the alarm handler reconnects to
`currentRoom`), and is kept for fidelity. -/
def scheduleRetry (s : HubState μ) (roomId : String) (overrideBackoff : Option Nat) :
    HubState μ :=
  if MAX_RETRIES ≤ s.retryCount then clearRetryAlarm s
  else
    let s1 := clearRetryAlarm s
    let s2 := { s1 with retryCount := s1.retryCount + 1 }
    let backoff :=
      match overrideBackoff with
      | some b => b
      | none => hubBackoff s2.retryCount
    { s2 with alarm := some backoff }

/-- `disconnect()`.  Besides the new state, returns the torn-down socket
(closed, with its `onclose` handler detached before `close()`), so that
a later close event delivered to it can be examined. -/
def disconnect (s : HubState μ) : HubState μ × Option Sock :=
  let s1 := clearRetryAlarm s
  match s1.ws with
  | some sock =>
      ({ s1 with ws := none, isConnecting := false },
       some { sock with oncloseRoom := none, readyState := ReadyState.Closed })
  | none => ({ s1 with isConnecting := false }, none)

/-- `enqueue(message)`: push to tail, evict the oldest past `QUEUE_CAP`. -/
def enqueue (s : HubState μ) (message : μ) : HubState μ :=
  { s with queue := pushEvict QUEUE_CAP s.queue message }

/-- `publish(message)`.  `serializeOk` is whether `JSON.stringify`
succeeds on the message; `sendOk` whether a direct `ws.send` succeeds.
Returns the new state and the messages written to the socket.  The
source wraps the whole body in a `try` whose `catch` is empty, so a
serialization failure falls through with no effect. -/
def publish (serializeOk : μ → Bool) (sendOk : Bool) (s : HubState μ) (message : μ) :
    HubState μ × List μ :=
  if serializeOk message then
    match s.ws with
    | some sock =>
        if sock.readyState = ReadyState.Open then
          if sendOk then (s, [message]) else (enqueue s message, [])
        else (enqueue s message, [])
    | none => (enqueue s message, [])
  else (s, [])

/-- `flushQueue()`: drain while the socket exists and is `OPEN`;
a failed send is unshifted back and the loop breaks. -/
def flushQueue (sendOk : Nat → Bool) (s : HubState μ) : HubState μ × List μ :=
  match s.ws with
  | some sock =>
      if sock.readyState = ReadyState.Open then
        let r := flushLoop sendOk 0 s.queue
        ({ s with queue := r.2 }, r.1)
      else (s, [])
  | none => (s, [])

/-- `connect(roomId)` as the state transformation one invocation
performs, given the outcome `tok` of the awaited
`getPublisherId`/`fetchHubToken` steps.  Mirrors background.js lines
118-192: early return on missing room or already-open same room; on a
room switch run `disconnect()` then target the new room and reset
`retryCount`/`authErrorBackoff`; early return while connecting or while
a socket is `CONNECTING`/`OPEN`; otherwise clear the alarm and act on
the token result (401 → auth backoff retry, other failure → normal
retry, success → fresh `WebSocket` in `CONNECTING` state whose `onclose`
captures `roomId`).  Also returns the socket detached by a room switch,
if any. -/
def connectStep (s : HubState μ) (roomId : Option String) (tok : TokenResult) :
    HubState μ × Option Sock :=
  match roomId with
  | none => (s, none)
  | some rid =>
    if s.currentRoom = some rid ∧ s.ws.map Sock.readyState = some ReadyState.Open then
      (s, none)
    else
      let sd : HubState μ × Option Sock :=
        if s.currentRoom ≠ some rid then
          let d := disconnect s
          ({ d.1 with currentRoom := some rid, retryCount := 0,
                      authErrorBackoff := false }, d.2)
        else (s, none)
      let s1 := sd.1
      let detached := sd.2
      if s1.isConnecting then (s1, detached)
      else if s1.ws.map Sock.readyState = some ReadyState.Connecting
              ∨ s1.ws.map Sock.readyState = some ReadyState.Open then
        (s1, detached)
      else
        let s2 := clearRetryAlarm { s1 with isConnecting := true }
        match tok with
        | TokenResult.authError =>
            let s3 := { s2 with isConnecting := false, authErrorBackoff := true }
            (scheduleRetry s3 rid (some AUTH_ERROR_BACKOFF_MS), detached)
        | TokenResult.otherError =>
            let s3 := { s2 with isConnecting := false }
            (scheduleRetry s3 rid none, detached)
        | TokenResult.ok _ =>
            let newSock : Sock :=
              { readyState := ReadyState.Connecting, oncloseRoom := some rid }
            let s3 := { s2 with authErrorBackoff := false, ws := some newSock }
            (s3, detached)

/-- The `onerror` handler installed in `connect` has an empty body. -/
def dispatchError (s : HubState μ) (_sock : Sock) : HubState μ := s

/-- Delivery of a close event to a socket's `onclose` handler.  If the
handler was detached (`onclose = null`) nothing runs; otherwise the
handler body: `isConnecting = false; ws = null; scheduleRetry(roomId)`
with the captured `roomId`. -/
def dispatchClose (s : HubState μ) (sock : Sock) : HubState μ :=
  match sock.oncloseRoom with
  | none => s
  | some roomId =>
      scheduleRetry { s with isConnecting := false, ws := none } roomId none

/-- Delivery of the open event: the platform moves the socket to `OPEN`
and the `onopen` handler runs `isConnecting = false; retryCount = 0;`
then `flushQueue()`.  Returns the state and the flushed messages. -/
def dispatchOpen (sendOk : Nat → Bool) (s : HubState μ) : HubState μ × List μ :=
  match s.ws with
  | none => (s, [])
  | some sock =>
      let s1 := { s with ws := some { sock with readyState := ReadyState.Open },
                         isConnecting := false, retryCount := 0 }
      flushQueue sendOk s1

/-- The `chrome.alarms.onAlarm` listener for `RETRY_ALARM_NAME`: the
fired alarm is no longer pending, and if `currentRoom` is set the
listener invokes `connect(currentRoom)`. -/
def onAlarm (tok : TokenResult) (s : HubState μ) : HubState μ × Option Sock :=
  let s1 := { s with alarm := none }
  match s1.currentRoom with
  | some room => connectStep s1 (some room) tok
  | none => (s1, none)

/-- `extractRoomFromUrl(url)`, computed over the character list:
`split(c)[0]` is the prefix before the first occurrence of `c`
(`takeWhile`), `replace(/\/$/, "")` strips one trailing slash, the
last `/`-segment of `split("/")` is the suffix after the final slash
(the whole string when there is none), and the segment passes the
`lastSegment && lastSegment.trim() !== ""` check when it is nonempty
and contains a non-whitespace character. -/
def extractRoomFromUrl (url : String) : Option String :=
  let noQuery := url.data.takeWhile (fun c => c ≠ '?')
  let noHash := noQuery.takeWhile (fun c => c ≠ '#')
  let cleanUrl := if noHash.getLast? = some '/' then noHash.dropLast else noHash
  let lastSegment := (cleanUrl.reverse.takeWhile (fun c => c ≠ '/')).reverse
  if lastSegment ≠ [] ∧ lastSegment.any (fun c => !c.isWhitespace) then
    some (String.mk lastSegment)
  else none

end HubPublisher

/-! ## Envelopes and the HAND_DATA handler -/

/-- The event payload forwarded by the content script as
`HAND_DATA.data` (card fields, `url`, `playerId`, `playerName`,
`timestamp`).  Nullable/possibly-absent fields are `Option`s. -/
structure HandData where
  value1 : String
  suit1 : String
  value2 : String
  suit2 : String
  url : Option String
  playerId : Option String
  playerName : Option String
  timestamp : Nat
  deriving DecidableEq, Repr

/-- The envelope written to the hub socket by `handleHandData`. -/
structure Envelope where
  type : String
  publisherId : String
  pokerNowPlayerId : Option String
  playerName : Option String
  data : HandData
  timestamp : Nat
  deriving DecidableEq, Repr

/-- `handleHandData(handData)`: drop events without a `url` or whose
`url` yields no room; otherwise `connect(roomId)` and, once
`getPublisherId` resolves with `publisherId`, publish the envelope.
`now` stands for `Date.now()`.  Returns the new hub state and the
messages written directly to the socket. -/
def handleHandData (tok : TokenResult) (serializeOk : Envelope → Bool) (sendOk : Bool)
    (publisherId : String) (now : Nat) (s : HubState Envelope) (handData : HandData) :
    HubState Envelope × List Envelope :=
  match handData.url with
  | none => (s, [])
  | some url =>
    match HubPublisher.extractRoomFromUrl url with
    | none => (s, [])
    | some roomId =>
        let c := HubPublisher.connectStep s (some roomId) tok
        let message : Envelope :=
          { type := "hand"
            publisherId := publisherId
            pokerNowPlayerId := handData.playerId
            playerName := handData.playerName
            data := handData
            timestamp := now }
        HubPublisher.publish serializeOk sendOk c.1 message

/-! ## ChannelManager (content script, `src/unnamed/part_000`) -/

/-- The content-script module state: `port` (whether the port object is
non-null), `reconnectAttempts`, `reconnectTimer` (pending delay in ms,
exact rational), and `messageQueue`. -/
structure ChannelState (μ : Type) where
  port : Bool
  reconnectAttempts : Nat
  reconnectTimer : Option ℚ
  messageQueue : List μ

/-- The backoff expression in `scheduleReconnect`:
`Math.min(RECONNECT_INTERVAL_MS * Math.pow(1.5, reconnectAttempts - 1), 30000)`.
Every value of this expression that the 30000 cap leaves relevant is an
exact dyadic rational in IEEE doubles, so `ℚ` models it exactly. -/
def reconnectDelay (reconnectAttempts : Nat) : ℚ :=
  min (RECONNECT_INTERVAL_MS * (3 / 2 : ℚ) ^ (reconnectAttempts - 1)) 30000

/-- `scheduleReconnect()`: no-op if a timer is already pending or the
attempt budget is exhausted; otherwise increment `reconnectAttempts`
and arm the timer with the capped exponential delay. -/
def scheduleReconnect (c : ChannelState μ) : ChannelState μ :=
  if c.reconnectTimer.isSome then c
  else if MAX_RECONNECT_ATTEMPTS ≤ c.reconnectAttempts then c
  else
    let n := c.reconnectAttempts + 1
    { c with reconnectAttempts := n, reconnectTimer := some (reconnectDelay n) }

/-- `flushMessageQueue()`: drain while the queue is nonempty and the
port exists; a failed `postMessage` is unshifted back and the loop
breaks.  Returns the state and the delivered messages. -/
def flushMessageQueue (sendOk : Nat → Bool) (c : ChannelState μ) :
    ChannelState μ × List μ :=
  if c.port then
    let r := flushLoop sendOk 0 c.messageQueue
    ({ c with messageQueue := r.2 }, r.1)
  else (c, [])

/-! ## Duplicate suppression (content script window listener) -/

/-- A parsed page hand as validated by the listener: the four card
fields are present strings (other fields do not enter the comparison). -/
structure Hand where
  value1 : String
  suit1 : String
  value2 : String
  suit2 : String
  deriving DecidableEq, Repr

/-- `compareHands(hand1, hand2)`: `false` when either argument is
absent, otherwise field-wise equality of the two value/suit pairs. -/
def compareHands (hand1 hand2 : Option Hand) : Bool :=
  match hand1, hand2 with
  | some h1, some h2 =>
      h1.value1 == h2.value1 && h1.suit1 == h2.suit1 &&
        h1.value2 == h2.value2 && h1.suit2 == h2.suit2
  | _, _ => false

/-- The outcome of the listener's guard chain on one window message:
either it bails out early (wrong source/type, non-string text, JSON
parse failure, invalid shape), or it has a validated hand. -/
inductive Incoming where
  | rejected
  | validHand (hand : Hand)

/-- One step of the `window.addEventListener` handler, over the
`previousHand` module variable.  For a validated hand: if
`compareHands(hand, previousHand)` is false, `checkRange(hand)` runs and
the `HAND_DATA` message is sent (returned as `some hand`); in every
case `previousHand := hand`.  Early-exit messages change nothing. -/
def onWindowMessage (previousHand : Option Hand) (msg : Incoming) :
    Option Hand × Option Hand :=
  match msg with
  | Incoming.validHand hand =>
      if compareHands (some hand) previousHand then (some hand, none)
      else (some hand, some hand)
  | Incoming.rejected => (previousHand, none)

/-! ## Identity resolution (`getPublisherId` in background.js) -/

/-- `getPublisherId(roomId)` over the persisted `publisherIds` map,
with `generateUUID()` modelled as an oracle stream `gen` indexed by the
number `used` of UUIDs drawn so far: on a hit return the stored id; on
a miss draw `gen used`, persist it for `roomId`, and return it. -/
def getPublisherId (gen : Nat → υ) (used : Nat)
    (publisherIds : List (String × υ)) (roomId : String) :
    υ × List (String × υ) × Nat :=
  match publisherIds.lookup roomId with
  | some pid => (pid, publisherIds, used)
  | none =>
      let pid := gen used
      (pid, (roomId, pid) :: publisherIds, used + 1)

/-! ## Helper lemmas -/

theorem flushLoop_all_true (q : List μ) :
    ∀ k, flushLoop (fun _ => true) k q = (q, []) := by
  induction q with
  | nil => intro k; rfl
  | cons m rest ih =>
      intro k
      simp only [flushLoop, if_true, ih (k + 1)]

theorem mem_pushEvict_self {cap : Nat} (hcap : 1 ≤ cap) (q : List μ) (m : μ) :
    m ∈ pushEvict cap q m := by
  unfold pushEvict
  by_cases hc : cap < (q ++ [m]).length
  · rw [if_pos hc]
    have hq : q ≠ [] := by
      intro h
      subst h
      simp at hc
      omega
    rw [List.tail_append_of_ne_nil hq]
    simp
  · rw [if_neg hc]
    simp

theorem lookup_mem {ids : List (String × υ)} {r : String} {p : υ}
    (h : ids.lookup r = some p) : (r, p) ∈ ids := by
  induction ids with
  | nil => simp [List.lookup] at h
  | cons e rest ih =>
      obtain ⟨k, v⟩ := e
      cases hbk : (r == k) with
      | true =>
          have hk : r = k := eq_of_beq hbk
          simp only [List.lookup, hbk, Option.some.injEq] at h
          subst hk
          subst h
          exact List.mem_cons_self _ _
      | false =>
          simp only [List.lookup, hbk] at h
          exact List.mem_cons_of_mem _ (ih h)

theorem lookup_snd_mem {ids : List (String × υ)} {r : String} {p : υ}
    (h : ids.lookup r = some p) : p ∈ ids.map Prod.snd := by
  exact List.mem_map_of_mem Prod.snd (lookup_mem h)

theorem nodup_lookup_ne {ids : List (String × υ)} {r r' : String} {p p' : υ}
    (hnd : (ids.map Prod.snd).Nodup)
    (h1 : ids.lookup r = some p) (h2 : ids.lookup r' = some p')
    (hrr : r ≠ r') : p ≠ p' := by
  induction ids with
  | nil => simp [List.lookup] at h1
  | cons e rest ih =>
      obtain ⟨k, v⟩ := e
      simp only [List.map_cons, List.nodup_cons] at hnd
      cases hbk : (r == k) with
      | true =>
          have hk : r = k := eq_of_beq hbk
          have hbk' : (r' == k) = false := by
            apply beq_false_of_ne
            intro hc
            exact hrr (hk.trans hc.symm)
          simp only [List.lookup, hbk, Option.some.injEq] at h1
          simp only [List.lookup, hbk'] at h2
          intro hpp
          exact hnd.1 (by rw [h1, hpp]; exact lookup_snd_mem h2)
      | false =>
          simp only [List.lookup, hbk] at h1
          cases hbk' : (r' == k) with
          | true =>
              have hk' : r' = k := eq_of_beq hbk'
              simp only [List.lookup, hbk', Option.some.injEq] at h2
              intro hpp
              exact hnd.1 (by rw [h2, ← hpp]; exact lookup_snd_mem h1)
          | false =>
              simp only [List.lookup, hbk'] at h2
              exact ih hnd.2 h1 h2

/-- Well-formedness of the persisted identity map relative to the UUID
stream: all stored ids are pairwise distinct and each was drawn from
`gen` at an index below `used`. -/
def IdsWF (gen : Nat → υ) (used : Nat) (ids : List (String × υ)) : Prop :=
  (ids.map Prod.snd).Nodup ∧ ∀ p ∈ ids.map Prod.snd, ∃ i, i < used ∧ p = gen i

theorem idsWF_nil (gen : Nat → υ) : IdsWF gen 0 [] := by
  constructor
  · exact List.nodup_nil
  · intro p hp
    simp at hp

theorem idsWF_fresh {gen : Nat → υ} {used : Nat} {ids : List (String × υ)}
    (hInj : Function.Injective gen) (hwf : IdsWF gen used ids)
    {p : υ} (hp : p ∈ ids.map Prod.snd) : p ≠ gen used := by
  obtain ⟨i, hi, hpi⟩ := hwf.2 p hp
  intro hc
  have : i = used := hInj (hpi ▸ hc)
  omega

theorem getPublisherId_wf {gen : Nat → υ} {used : Nat} {ids : List (String × υ)}
    (hInj : Function.Injective gen) (hwf : IdsWF gen used ids) (r : String) :
    IdsWF gen (getPublisherId gen used ids r).2.2 (getPublisherId gen used ids r).2.1 := by
  unfold getPublisherId
  cases hl : ids.lookup r with
  | some pid => exact hwf
  | none =>
      constructor
      · simp only [List.map_cons, List.nodup_cons]
        exact ⟨fun hm => idsWF_fresh hInj hwf hm rfl, hwf.1⟩
      · intro p hp
        simp only [List.map_cons, List.mem_cons] at hp
        cases hp with
        | inl h => exact ⟨used, Nat.lt_succ_self used, h⟩
        | inr h =>
            obtain ⟨i, hi, hpi⟩ := hwf.2 p h
            exact ⟨i, Nat.lt_succ_of_lt hi, hpi⟩

theorem getPublisherId_lookup (gen : Nat → υ) (used : Nat)
    (ids : List (String × υ)) (r : String) :
    (getPublisherId gen used ids r).2.1.lookup r
      = some (getPublisherId gen used ids r).1 := by
  unfold getPublisherId
  cases hl : ids.lookup r with
  | some pid => exact hl
  | none =>
      simp only [List.lookup]
      rw [show (r == r) = true from beq_self_eq_true r]

theorem getPublisherId_stable {gen : Nat → υ} {used : Nat}
    {ids : List (String × υ)} (r : String) {r0 : String} {p0 : υ}
    (h : ids.lookup r0 = some p0) :
    (getPublisherId gen used ids r).2.1.lookup r0 = some p0 := by
  unfold getPublisherId
  cases hl : ids.lookup r with
  | some pid => exact h
  | none =>
      have hne : (r0 == r) = false := by
        apply beq_false_of_ne
        intro hc
        rw [hc] at h
        rw [h] at hl
        exact Option.noConfusion hl
      simp only [List.lookup, hne]
      exact h

theorem getPublisherId_hit {gen : Nat → υ} {used : Nat}
    {ids : List (String × υ)} {r : String} {p : υ}
    (h : ids.lookup r = some p) :
    getPublisherId gen used ids r = (p, ids, used) := by
  unfold getPublisherId
  rw [h]

theorem getPublisherId_miss {gen : Nat → υ} {used : Nat}
    {ids : List (String × υ)} {r : String}
    (h : ids.lookup r = none) :
    getPublisherId gen used ids r = (gen used, (r, gen used) :: ids, used + 1) := by
  unfold getPublisherId
  rw [h]

theorem foldl_enqueue_queue (es : List μ) (s : HubState μ) :
    (es.foldl HubPublisher.enqueue s).queue
      = es.foldl (pushEvict QUEUE_CAP) s.queue := by
  induction es generalizing s with
  | nil => rfl
  | cons e rest ih =>
      rw [List.foldl_cons, List.foldl_cons, ih]
      rfl

/-! ## Claims -/

/-- Claim C1: for every sequence of N enqueue operations performed while
disconnected with N greater than the queue capacity C (C = 20 for the
channel `messageQueue` via `enqueueMessage`, C = 100 for the hub
`queue` via `HubPublisher.enqueue`), the queue afterwards contains
exactly the last C enqueued messages in their original relative order,
and its length never exceeds C after any operation. -/
theorem C1_queue_retains_last_cap (msgs es : List Nat) (s : HubState Nat)
    (h20 : MESSAGE_QUEUE_CAP < msgs.length) (h100 : QUEUE_CAP < es.length)
    (hq : s.queue = []) :
    msgs.foldl enqueueMessage [] = msgs.drop (msgs.length - MESSAGE_QUEUE_CAP)
    ∧ (msgs.foldl enqueueMessage []).length = MESSAGE_QUEUE_CAP
    ∧ (∀ i, ((msgs.take i).foldl enqueueMessage ([] : List Nat)).length
          ≤ MESSAGE_QUEUE_CAP)
    ∧ (es.foldl HubPublisher.enqueue s).queue = es.drop (es.length - QUEUE_CAP)
    ∧ (es.foldl HubPublisher.enqueue s).queue.length = QUEUE_CAP
    ∧ ∀ i, ((es.take i).foldl HubPublisher.enqueue s).queue.length ≤ QUEUE_CAP := by
  have h1 : msgs.foldl enqueueMessage [] = msgs.drop (msgs.length - MESSAGE_QUEUE_CAP) :=
    foldl_pushEvict_nil MESSAGE_QUEUE_CAP msgs
  have h4 : (es.foldl HubPublisher.enqueue s).queue = es.drop (es.length - QUEUE_CAP) := by
    rw [foldl_enqueue_queue, hq]
    exact foldl_pushEvict_nil QUEUE_CAP es
  refine ⟨h1, ?_, ?_, h4, ?_, ?_⟩
  · rw [h1, List.length_drop]
    omega
  · intro i
    exact foldl_pushEvict_length_le MESSAGE_QUEUE_CAP (msgs.take i) [] (by simp)
  · rw [h4, List.length_drop]
    omega
  · intro i
    rw [foldl_enqueue_queue, hq]
    exact foldl_pushEvict_length_le QUEUE_CAP (es.take i) [] (by simp)

/-- Witness for C1 at concrete inputs: 21 channel messages and 101 hub
messages enqueued from the initial (empty-queue) states. -/
theorem C1_queue_retains_last_cap_witness :
    (List.range 21).foldl enqueueMessage []
        = (List.range 21).drop ((List.range 21).length - MESSAGE_QUEUE_CAP)
    ∧ ((List.range 21).foldl enqueueMessage []).length = MESSAGE_QUEUE_CAP
    ∧ (∀ i, (((List.range 21).take i).foldl enqueueMessage ([] : List Nat)).length
          ≤ MESSAGE_QUEUE_CAP)
    ∧ ((List.range 101).foldl HubPublisher.enqueue HubPublisher.init).queue
        = (List.range 101).drop ((List.range 101).length - QUEUE_CAP)
    ∧ ((List.range 101).foldl HubPublisher.enqueue HubPublisher.init).queue.length
        = QUEUE_CAP
    ∧ ∀ i, (((List.range 101).take i).foldl HubPublisher.enqueue
          HubPublisher.init).queue.length ≤ QUEUE_CAP :=
  C1_queue_retains_last_cap (List.range 21) (List.range 101) HubPublisher.init
    (by decide) (by decide) rfl

/-- Claim C5: flushing a queue (`flushMessageQueue` for the channel,
`HubPublisher.flushQueue` for the hub) drains it strictly in FIFO order
while the link is connected/open; if a transmit fails mid-flush the
failed message stays at the head of the remaining queue and flushing
stops, so the sent prefix followed by the remaining queue is exactly
the original queue: nothing is lost and relative order is preserved. -/
theorem C5_flush_fifo_stop_on_failure (sendOk sendOk' : Nat → Bool)
    (s : HubState Nat) (sock : Sock) (c : ChannelState Nat)
    (hws : s.ws = some sock) (hopen : sock.readyState = ReadyState.Open)
    (hport : c.port = true) :
    (∃ j, j ≤ s.queue.length
      ∧ (HubPublisher.flushQueue sendOk s).2 = s.queue.take j
      ∧ (HubPublisher.flushQueue sendOk s).1.queue = s.queue.drop j
      ∧ (HubPublisher.flushQueue sendOk s).2 ++ (HubPublisher.flushQueue sendOk s).1.queue
          = s.queue
      ∧ (∀ i < j, sendOk i = true)
      ∧ (j < s.queue.length → sendOk j = false))
    ∧ (∃ j, j ≤ c.messageQueue.length
      ∧ (flushMessageQueue sendOk' c).2 = c.messageQueue.take j
      ∧ (flushMessageQueue sendOk' c).1.messageQueue = c.messageQueue.drop j
      ∧ (flushMessageQueue sendOk' c).2 ++ (flushMessageQueue sendOk' c).1.messageQueue
          = c.messageQueue
      ∧ (∀ i < j, sendOk' i = true)
      ∧ (j < c.messageQueue.length → sendOk' j = false)) := by
  constructor
  · obtain ⟨j, hj, heq, hsucc, hfail⟩ := flushLoop_spec sendOk s.queue 0
    have hfl : HubPublisher.flushQueue sendOk s
        = ({ s with queue := s.queue.drop j }, s.queue.take j) := by
      simp only [HubPublisher.flushQueue, hws, hopen, if_pos, heq]
    refine ⟨j, hj, ?_, ?_, ?_, ?_, ?_⟩
    · rw [hfl]
    · rw [hfl]
    · rw [hfl]
      exact List.take_append_drop j s.queue
    · intro i hi
      simpa using hsucc i hi
    · intro hjl
      simpa using hfail hjl
  · obtain ⟨j, hj, heq, hsucc, hfail⟩ := flushLoop_spec sendOk' c.messageQueue 0
    have hfl : flushMessageQueue sendOk' c
        = ({ c with messageQueue := c.messageQueue.drop j }, c.messageQueue.take j) := by
      simp only [flushMessageQueue, hport, if_pos, heq]
    refine ⟨j, hj, ?_, ?_, ?_, ?_, ?_⟩
    · rw [hfl]
    · rw [hfl]
    · rw [hfl]
      exact List.take_append_drop j c.messageQueue
    · intro i hi
      simpa using hsucc i hi
    · intro hjl
      simpa using hfail hjl

/-- Witness for C5: a three-element hub queue on an open socket whose
second send fails, and a three-element channel queue on a live port
whose second post fails. -/
theorem C5_flush_fifo_stop_on_failure_witness :
    (∃ j, j ≤ ([3, 4, 5] : List Nat).length
      ∧ (HubPublisher.flushQueue (fun i => i == 0)
          { (HubPublisher.init : HubState Nat) with
              ws := some { readyState := ReadyState.Open, oncloseRoom := some "r" },
              queue := [3, 4, 5] }).2 = ([3, 4, 5] : List Nat).take j
      ∧ (HubPublisher.flushQueue (fun i => i == 0)
          { (HubPublisher.init : HubState Nat) with
              ws := some { readyState := ReadyState.Open, oncloseRoom := some "r" },
              queue := [3, 4, 5] }).1.queue = ([3, 4, 5] : List Nat).drop j
      ∧ (HubPublisher.flushQueue (fun i => i == 0)
          { (HubPublisher.init : HubState Nat) with
              ws := some { readyState := ReadyState.Open, oncloseRoom := some "r" },
              queue := [3, 4, 5] }).2 ++
        (HubPublisher.flushQueue (fun i => i == 0)
          { (HubPublisher.init : HubState Nat) with
              ws := some { readyState := ReadyState.Open, oncloseRoom := some "r" },
              queue := [3, 4, 5] }).1.queue = [3, 4, 5]
      ∧ (∀ i < j, (fun i => i == 0) i = true)
      ∧ (j < ([3, 4, 5] : List Nat).length → (fun i => i == 0) j = false))
    ∧ (∃ j, j ≤ ([6, 7, 8] : List Nat).length
      ∧ (flushMessageQueue (fun i => i == 0)
          (⟨true, 0, none, [6, 7, 8]⟩ : ChannelState Nat)).2
          = ([6, 7, 8] : List Nat).take j
      ∧ (flushMessageQueue (fun i => i == 0)
          (⟨true, 0, none, [6, 7, 8]⟩ : ChannelState Nat)).1.messageQueue
          = ([6, 7, 8] : List Nat).drop j
      ∧ (flushMessageQueue (fun i => i == 0)
          (⟨true, 0, none, [6, 7, 8]⟩ : ChannelState Nat)).2 ++
        (flushMessageQueue (fun i => i == 0)
          (⟨true, 0, none, [6, 7, 8]⟩ : ChannelState Nat)).1.messageQueue = [6, 7, 8]
      ∧ (∀ i < j, (fun i => i == 0) i = true)
      ∧ (j < ([6, 7, 8] : List Nat).length → (fun i => i == 0) j = false)) :=
  C5_flush_fifo_stop_on_failure (fun i => i == 0) (fun i => i == 0)
    { (HubPublisher.init : HubState Nat) with
        ws := some { readyState := ReadyState.Open, oncloseRoom := some "r" },
        queue := [3, 4, 5] }
    { readyState := ReadyState.Open, oncloseRoom := some "r" }
    (⟨true, 0, none, [6, 7, 8]⟩ : ChannelState Nat) rfl rfl rfl

/-- Claim C6: for every retryCount n ≥ 1 the retry delay is
`min(2000 * 1.5^(n-1), 30000)` ms for the channel and
`min(1000 * 2^(n-1), 10000)` ms for the hub; each delay sequence is
monotonically non-decreasing in n and bounded by its ceiling, and no
retry is scheduled once the count reaches 50 (channel) resp. 100
(hub). -/
theorem C6_backoff_schedule (n m : Nat) (c : ChannelState Nat)
    (hub : HubState Nat) (rid : String) (ov : Option Nat)
    (hn : 1 ≤ n) (hnm : n ≤ m)
    (hct : c.reconnectTimer = none) (hca : c.reconnectAttempts = n - 1)
    (hcb : n - 1 < MAX_RECONNECT_ATTEMPTS)
    (hha : hub.retryCount = n - 1) (hhb : n - 1 < MAX_RETRIES) :
    (scheduleReconnect c).reconnectTimer
      = some (min (2000 * (3 / 2 : ℚ) ^ (n - 1)) 30000)
    ∧ (HubPublisher.scheduleRetry hub rid none).alarm
      = some (min (1000 * 2 ^ (n - 1)) 10000)
    ∧ reconnectDelay n ≤ reconnectDelay m
    ∧ HubPublisher.hubBackoff n ≤ HubPublisher.hubBackoff m
    ∧ reconnectDelay n ≤ 30000
    ∧ HubPublisher.hubBackoff n ≤ 10000
    ∧ (∀ c' : ChannelState Nat, MAX_RECONNECT_ATTEMPTS ≤ c'.reconnectAttempts →
        scheduleReconnect c' = c')
    ∧ (∀ hub' : HubState Nat, MAX_RETRIES ≤ hub'.retryCount →
        (HubPublisher.scheduleRetry hub' rid ov).alarm = none
        ∧ (HubPublisher.scheduleRetry hub' rid ov).retryCount = hub'.retryCount) := by
  refine ⟨?_, ?_, ?_, ?_, ?_, ?_, ?_, ?_⟩
  · have hts : ¬ c.reconnectTimer.isSome = true := by rw [hct]; simp
    have hcap : ¬ MAX_RECONNECT_ATTEMPTS ≤ c.reconnectAttempts := by omega
    simp only [scheduleReconnect, hts, if_false, hcap]
    have harg : c.reconnectAttempts + 1 = n := by omega
    rw [harg]
    simp [reconnectDelay, RECONNECT_INTERVAL_MS]
  · have hcap : ¬ MAX_RETRIES ≤ hub.retryCount := by omega
    simp only [HubPublisher.scheduleRetry, hcap, if_false]
    have harg : hub.retryCount + 1 = n := by omega
    simp only [HubPublisher.clearRetryAlarm, harg]
    simp [HubPublisher.hubBackoff, INITIAL_BACKOFF_MS, MAX_BACKOFF_MS]
  · unfold reconnectDelay RECONNECT_INTERVAL_MS
    apply min_le_min _ (le_refl _)
    apply mul_le_mul_of_nonneg_left _ (by norm_num : (0 : ℚ) ≤ 2000)
    exact pow_le_pow_right₀ (by norm_num) (by omega)
  · unfold HubPublisher.hubBackoff INITIAL_BACKOFF_MS MAX_BACKOFF_MS
    apply min_le_min _ (le_refl _)
    exact Nat.mul_le_mul (Nat.le_refl _)
      (Nat.pow_le_pow_right (by norm_num) (by omega))
  · exact min_le_right _ _
  · exact min_le_right _ _
  · intro c' h50
    by_cases ht : c'.reconnectTimer.isSome
    · simp [scheduleReconnect, ht]
    · simp [scheduleReconnect, ht, h50]
  · intro hub' h100
    constructor <;>
      simp [HubPublisher.scheduleRetry, HubPublisher.clearRetryAlarm, h100]

/-- Witness for C6 at n = 1, m = 2 from fresh states. -/
theorem C6_backoff_schedule_witness :
    ((scheduleReconnect (⟨true, 0, none, []⟩ : ChannelState Nat)).reconnectTimer
      = some (min (2000 * (3 / 2 : ℚ) ^ (1 - 1)) 30000)
    ∧ (HubPublisher.scheduleRetry (HubPublisher.init : HubState Nat) "r" none).alarm
      = some (min (1000 * 2 ^ (1 - 1)) 10000)
    ∧ reconnectDelay 1 ≤ reconnectDelay 2
    ∧ HubPublisher.hubBackoff 1 ≤ HubPublisher.hubBackoff 2
    ∧ reconnectDelay 1 ≤ 30000
    ∧ HubPublisher.hubBackoff 1 ≤ 10000
    ∧ (∀ c' : ChannelState Nat, MAX_RECONNECT_ATTEMPTS ≤ c'.reconnectAttempts →
        scheduleReconnect c' = c')
    ∧ (∀ hub' : HubState Nat, MAX_RETRIES ≤ hub'.retryCount →
        (HubPublisher.scheduleRetry hub' "r" none).alarm = none
        ∧ (HubPublisher.scheduleRetry hub' "r" none).retryCount
            = hub'.retryCount)) :=
  C6_backoff_schedule 1 2 (⟨true, 0, none, []⟩ : ChannelState Nat)
    (HubPublisher.init : HubState Nat) "r" none
    (by decide) (by decide) rfl rfl (by decide) rfl (by decide)

/-- Claim C9: identity resolution is idempotent per room — a second
`getPublisherId` call for the same room returns the same UUID and
leaves the persisted map and the UUID stream untouched; existing
entries are never mutated or deleted; and (given that the UUID
generator never repeats a value) two different rooms resolve to two
different UUIDs. -/
theorem C9_identity_idempotent_distinct (gen : Nat → υ) (used : Nat)
    (ids : List (String × υ)) (r r' : String)
    (hInj : Function.Injective gen) (hwf : IdsWF gen used ids)
    (hne : r' ≠ r) :
    getPublisherId gen (getPublisherId gen used ids r).2.2
        (getPublisherId gen used ids r).2.1 r
      = ((getPublisherId gen used ids r).1, (getPublisherId gen used ids r).2.1,
         (getPublisherId gen used ids r).2.2)
    ∧ (∀ r0 p0, ids.lookup r0 = some p0 →
        (getPublisherId gen used ids r).2.1.lookup r0 = some p0)
    ∧ (getPublisherId gen (getPublisherId gen used ids r).2.2
        (getPublisherId gen used ids r).2.1 r').1
      ≠ (getPublisherId gen used ids r).1 := by
  have hl1 := getPublisherId_lookup gen used ids r
  have hwf1 := getPublisherId_wf hInj hwf r
  refine ⟨getPublisherId_hit hl1, fun r0 p0 h => getPublisherId_stable r h, ?_⟩
  cases hl' : (getPublisherId gen used ids r).2.1.lookup r' with
  | some p' =>
      rw [getPublisherId_hit hl']
      exact nodup_lookup_ne hwf1.1 hl' hl1 hne
  | none =>
      have hmem : (getPublisherId gen used ids r).1
          ∈ ((getPublisherId gen used ids r).2.1).map Prod.snd :=
        lookup_snd_mem hl1
      have hfresh := idsWF_fresh hInj hwf1 hmem
      rw [getPublisherId_miss hl']
      exact fun hc => hfresh hc.symm

/-- Witness for C9: an injective UUID stream over an empty persisted
map, rooms "a" and "b". -/
theorem C9_identity_idempotent_distinct_witness :
    getPublisherId (fun i => i) (getPublisherId (fun i => i) 0 [] "a").2.2
        (getPublisherId (fun i => i) 0 [] "a").2.1 "a"
      = ((getPublisherId (fun i => i) 0 [] "a").1,
         (getPublisherId (fun i => i) 0 [] "a").2.1,
         (getPublisherId (fun i => i) 0 [] "a").2.2)
    ∧ (∀ r0 p0, ([] : List (String × Nat)).lookup r0 = some p0 →
        (getPublisherId (fun i => i) 0 [] "a").2.1.lookup r0 = some p0)
    ∧ (getPublisherId (fun i => i) (getPublisherId (fun i => i) 0 [] "a").2.2
        (getPublisherId (fun i => i) 0 [] "a").2.1 "b").1
      ≠ (getPublisherId (fun i => i) 0 [] "a").1 :=
  C9_identity_idempotent_distinct (fun i => i) 0 [] "a" "b"
    (fun _ _ h => h) (idsWF_nil (fun i => i)) (by decide)

/-- Claim C10: duplicate suppression never suppresses the first hand —
`compareHands` returns false whenever either argument is absent, so the
first valid FROM_PAGE hand (no previous hand recorded) is always
processed (`checkRange` invoked and a HAND_DATA message sent, returned
as `some hand`), and a hand is suppressed exactly when its two
value/suit pairs equal those of the immediately preceding hand. -/
theorem C10_first_hand_never_suppressed (h h' : Hand) (prev : Option Hand) :
    compareHands none prev = false
    ∧ compareHands (some h) none = false
    ∧ (onWindowMessage none (Incoming.validHand h)).2 = some h
    ∧ ((onWindowMessage (some h') (Incoming.validHand h)).2 = none
        ↔ h.value1 = h'.value1 ∧ h.suit1 = h'.suit1
          ∧ h.value2 = h'.value2 ∧ h.suit2 = h'.suit2)
    ∧ (onWindowMessage prev (Incoming.validHand h)).1 = some h
    ∧ onWindowMessage prev Incoming.rejected = (prev, none) := by
  refine ⟨?_, rfl, ?_, ?_, ?_, rfl⟩
  · cases prev <;> rfl
  · simp [onWindowMessage, compareHands]
  · simp only [onWindowMessage]
    by_cases hcmp : compareHands (some h) (some h') = true
    · rw [if_pos hcmp]
      simp only [true_iff]
      simp [compareHands, Bool.and_eq_true, beq_iff_eq] at hcmp
      exact ⟨hcmp.1.1.1, hcmp.1.1.2, hcmp.1.2, hcmp.2⟩
    · rw [if_neg hcmp]
      constructor
      · intro hc
        exact absurd hc (by simp)
      · intro hc
        exfalso
        apply hcmp
        simp [compareHands, Bool.and_eq_true, beq_iff_eq]
        exact ⟨⟨⟨hc.1, hc.2.1⟩, hc.2.2.1⟩, hc.2.2.2⟩
  · simp only [onWindowMessage]
    by_cases hcmp : compareHands (some h) prev = true
    · rw [if_pos hcmp]
    · rw [if_neg hcmp]

/-- Claim C3 counterexample: the claim says `"https://host/"` yields no
room, but `extractRoomFromUrl` strips the trailing slash and then
returns the last `/`-segment of `"https://host"`, which is `"host"`. -/
theorem C3_counterexample :
    HubPublisher.extractRoomFromUrl "https://host/" ≠ none
    ∧ HubPublisher.extractRoomFromUrl "https://host/" = some "host" := by
  decide

/-- Claim C3 (amended): room extraction strips the query string and
fragment, trims a trailing slash, and returns the final `/`-delimited
segment; `"https://host/games/abc123/"` and
`"https://host/games/abc123?x=1#y"` yield `"abc123"`, but
`"https://host/"` yields `"host"` (the host segment, not "no room");
a URL whose final segment is empty or all whitespace (such as
`"https://host//"` or the empty string) yields no room, and such an
event is dropped by `handleHandData` — not queued, not published, the
state unchanged — as is an event carrying no `url` at all. -/
theorem C3_room_extraction_amended :
    HubPublisher.extractRoomFromUrl "https://host/games/abc123/" = some "abc123"
    ∧ HubPublisher.extractRoomFromUrl "https://host/games/abc123?x=1#y" = some "abc123"
    ∧ HubPublisher.extractRoomFromUrl "https://host/" = some "host"
    ∧ HubPublisher.extractRoomFromUrl "https://host//" = none
    ∧ HubPublisher.extractRoomFromUrl "" = none
    ∧ (∀ (tok : TokenResult) (serializeOk : Envelope → Bool) (sendOk : Bool)
        (pid : String) (now : Nat) (s : HubState Envelope) (hd : HandData),
        hd.url = none →
        handleHandData tok serializeOk sendOk pid now s hd = (s, []))
    ∧ (∀ (tok : TokenResult) (serializeOk : Envelope → Bool) (sendOk : Bool)
        (pid : String) (now : Nat) (s : HubState Envelope) (hd : HandData)
        (u : String),
        hd.url = some u → HubPublisher.extractRoomFromUrl u = none →
        handleHandData tok serializeOk sendOk pid now s hd = (s, [])) := by
  refine ⟨by decide, by decide, by decide, by decide, by decide, ?_, ?_⟩
  · intro tok serializeOk sendOk pid now s hd hurl
    simp only [handleHandData, hurl]
  · intro tok serializeOk sendOk pid now s hd u hurl hext
    simp only [handleHandData, hurl, hext]

/-- Witness for C3 (amended) at concrete inputs: the three sample URLs
plus a dropped event whose url's final segment is empty. -/
theorem C3_room_extraction_amended_witness :
    HubPublisher.extractRoomFromUrl "https://host/games/abc123/" = some "abc123"
    ∧ handleHandData TokenResult.otherError (fun _ => true) true "p" 0
        HubPublisher.init
        { value1 := "A", suit1 := "s", value2 := "K", suit2 := "h",
          url := some "https://host//", playerId := none, playerName := none,
          timestamp := 0 }
      = (HubPublisher.init, [])
    ∧ handleHandData TokenResult.otherError (fun _ => true) true "p" 0
        HubPublisher.init
        { value1 := "A", suit1 := "s", value2 := "K", suit2 := "h",
          url := none, playerId := none, playerName := none, timestamp := 0 }
      = (HubPublisher.init, []) :=
  ⟨C3_room_extraction_amended.1,
   C3_room_extraction_amended.2.2.2.2.2.2 TokenResult.otherError (fun _ => true)
     true "p" 0 HubPublisher.init
     { value1 := "A", suit1 := "s", value2 := "K", suit2 := "h",
       url := some "https://host//", playerId := none, playerName := none,
       timestamp := 0 } "https://host//" rfl (by decide),
   C3_room_extraction_amended.2.2.2.2.2.1 TokenResult.otherError (fun _ => true)
     true "p" 0 HubPublisher.init
     { value1 := "A", suit1 := "s", value2 := "K", suit2 := "h",
       url := none, playerId := none, playerName := none, timestamp := 0 } rfl⟩

theorem connectStep_authError_eq (s : HubState μ) (rid : String)
    (hroom : s.currentRoom = some rid) (hconn : s.isConnecting = false)
    (hws : s.ws = none) (hrc : s.retryCount < MAX_RETRIES) :
    (HubPublisher.connectStep s (some rid) TokenResult.authError).1
      = { s with isConnecting := false, authErrorBackoff := true,
                 retryCount := s.retryCount + 1,
                 alarm := some AUTH_ERROR_BACKOFF_MS } := by
  have hnle : ¬ MAX_RETRIES ≤ s.retryCount := by omega
  simp [HubPublisher.connectStep, HubPublisher.scheduleRetry,
        HubPublisher.clearRetryAlarm, hroom, hconn, hws, hnle]

theorem connectStep_otherError_eq (s : HubState μ) (rid : String)
    (hroom : s.currentRoom = some rid) (hconn : s.isConnecting = false)
    (hws : s.ws = none) (hrc : s.retryCount < MAX_RETRIES) :
    (HubPublisher.connectStep s (some rid) TokenResult.otherError).1
      = { s with isConnecting := false,
                 retryCount := s.retryCount + 1,
                 alarm := some (HubPublisher.hubBackoff (s.retryCount + 1)) } := by
  have hnle : ¬ MAX_RETRIES ≤ s.retryCount := by omega
  simp [HubPublisher.connectStep, HubPublisher.scheduleRetry,
        HubPublisher.clearRetryAlarm, hroom, hconn, hws, hnle]

/-- Claim C2 counterexample: from a fresh state targeting room "r"
(retryCount 0), a 401 schedules the fixed 60000 ms retry but also
increments retryCount to 1, so the next non-401 failure schedules
min(1000 * 2^1, 10000) = 2000 ms rather than the 1000 ms the
exponential schedule would give from the pre-401 retryCount: the 401
does advance the schedule.  Moreover at retryCount = 100 a 401
schedules no retry at all, so the fixed cooldown does not hold
regardless of retryCount. -/
theorem C2_counterexample :
    (HubPublisher.connectStep
        ({ (HubPublisher.init : HubState Nat) with currentRoom := some "r" })
        (some "r") TokenResult.authError).1.retryCount = 1
    ∧ (HubPublisher.connectStep
        ({ (HubPublisher.init : HubState Nat) with currentRoom := some "r" })
        (some "r") TokenResult.authError).1.alarm = some 60000
    ∧ (HubPublisher.connectStep
        (HubPublisher.connectStep
          ({ (HubPublisher.init : HubState Nat) with currentRoom := some "r" })
          (some "r") TokenResult.authError).1
        (some "r") TokenResult.otherError).1.alarm = some 2000
    ∧ HubPublisher.hubBackoff
        (({ (HubPublisher.init : HubState Nat) with
            currentRoom := some "r" }).retryCount + 1) = 1000
    ∧ (HubPublisher.connectStep
        (HubPublisher.connectStep
          ({ (HubPublisher.init : HubState Nat) with currentRoom := some "r" })
          (some "r") TokenResult.authError).1
        (some "r") TokenResult.otherError).1.alarm
      ≠ some (HubPublisher.hubBackoff
          (({ (HubPublisher.init : HubState Nat) with
              currentRoom := some "r" }).retryCount + 1))
    ∧ (HubPublisher.connectStep
        ({ (HubPublisher.init : HubState Nat) with
            currentRoom := some "r", retryCount := MAX_RETRIES })
        (some "r") TokenResult.authError).1.alarm = none := by
  decide

/-- Claim C2 (amended): a 401 from the token service, while retryCount
is below the 100-attempt budget, schedules the retry with the fixed
60000 ms cooldown (the delay itself does not depend on retryCount) and
sets authErrorBackoff to true; but `scheduleRetry` increments
retryCount on the override path too, so the 401 does advance the
exponential schedule: a subsequent non-401 failure computes its delay
from the incremented count (`hubBackoff (retryCount + 2)`), not from
the retryCount value that existed before the 401. -/
theorem C2_auth_backoff_amended (s : HubState Nat) (rid : String)
    (hroom : s.currentRoom = some rid) (hconn : s.isConnecting = false)
    (hws : s.ws = none) (hrc : s.retryCount + 1 < MAX_RETRIES) :
    (HubPublisher.connectStep s (some rid) TokenResult.authError).1.alarm
      = some AUTH_ERROR_BACKOFF_MS
    ∧ (HubPublisher.connectStep s (some rid) TokenResult.authError).1.authErrorBackoff
      = true
    ∧ (HubPublisher.connectStep s (some rid) TokenResult.authError).1.retryCount
      = s.retryCount + 1
    ∧ (HubPublisher.connectStep
        (HubPublisher.connectStep s (some rid) TokenResult.authError).1
        (some rid) TokenResult.otherError).1.alarm
      = some (HubPublisher.hubBackoff (s.retryCount + 2)) := by
  have h1 := connectStep_authError_eq s rid hroom hconn hws (by omega)
  refine ⟨by rw [h1], by rw [h1], by rw [h1], ?_⟩
  rw [h1]
  have h2 := connectStep_otherError_eq
    { s with isConnecting := false, authErrorBackoff := true,
             retryCount := s.retryCount + 1, alarm := some AUTH_ERROR_BACKOFF_MS }
    rid hroom rfl hws (by show s.retryCount + 1 < MAX_RETRIES; omega)
  rw [h2]

/-- Witness for C2 (amended) at a fresh state targeting room "r". -/
theorem C2_auth_backoff_amended_witness :
    (HubPublisher.connectStep
        ({ (HubPublisher.init : HubState Nat) with currentRoom := some "r" })
        (some "r") TokenResult.authError).1.alarm = some AUTH_ERROR_BACKOFF_MS
    ∧ (HubPublisher.connectStep
        ({ (HubPublisher.init : HubState Nat) with currentRoom := some "r" })
        (some "r") TokenResult.authError).1.authErrorBackoff = true
    ∧ (HubPublisher.connectStep
        ({ (HubPublisher.init : HubState Nat) with currentRoom := some "r" })
        (some "r") TokenResult.authError).1.retryCount
      = ({ (HubPublisher.init : HubState Nat) with
            currentRoom := some "r" }).retryCount + 1
    ∧ (HubPublisher.connectStep
        (HubPublisher.connectStep
          ({ (HubPublisher.init : HubState Nat) with currentRoom := some "r" })
          (some "r") TokenResult.authError).1
        (some "r") TokenResult.otherError).1.alarm
      = some (HubPublisher.hubBackoff
          (({ (HubPublisher.init : HubState Nat) with
              currentRoom := some "r" }).retryCount + 2)) :=
  C2_auth_backoff_amended
    ({ (HubPublisher.init : HubState Nat) with currentRoom := some "r" })
    "r" rfl rfl rfl (by decide)

theorem dispatchClose_none (s : HubState μ) (sock : Sock)
    (h : sock.oncloseRoom = none) :
    HubPublisher.dispatchClose s sock = s := by
  unfold HubPublisher.dispatchClose
  rw [h]

theorem connectStep_switch_ok_eq (s : HubState μ) (rid t : String)
    (hswitch : s.currentRoom ≠ some rid) :
    (HubPublisher.connectStep s (some rid) (TokenResult.ok t)).1
      = { s with
          ws := some { readyState := ReadyState.Connecting, oncloseRoom := some rid },
          currentRoom := some rid, retryCount := 0, isConnecting := true,
          authErrorBackoff := false, alarm := none }
    ∧ (HubPublisher.connectStep s (some rid) (TokenResult.ok t)).2
      = s.ws.map (fun sock : Sock =>
          { sock with oncloseRoom := none, readyState := ReadyState.Closed }) := by
  cases hws : s.ws with
  | none =>
      constructor <;>
        simp [HubPublisher.connectStep, HubPublisher.disconnect,
              HubPublisher.clearRetryAlarm, hswitch, hws]
  | some sock =>
      constructor <;>
        simp [HubPublisher.connectStep, HubPublisher.disconnect,
              HubPublisher.clearRetryAlarm, hswitch, hws]

/-- Claim C4 counterexample: from a state targeting room "old" with one
message queued, `connect("new")` (token granted) leaves that message in
the queue, and when the new socket (whose onclose closure captures room
"new") opens, the flush delivers the old-room message on the new
room's socket — contradicting "no message queued while the old room was
targeted is delivered to the new room's socket". -/
theorem C4_counterexample :
    (HubPublisher.connectStep
        ({ (HubPublisher.init : HubState Nat) with
            currentRoom := some "old", queue := [7], alarm := some 2000 })
        (some "new") (TokenResult.ok "t")).1.queue = [7]
    ∧ (HubPublisher.connectStep
        ({ (HubPublisher.init : HubState Nat) with
            currentRoom := some "old", queue := [7], alarm := some 2000 })
        (some "new") (TokenResult.ok "t")).1.currentRoom = some "new"
    ∧ (HubPublisher.connectStep
        ({ (HubPublisher.init : HubState Nat) with
            currentRoom := some "old", queue := [7], alarm := some 2000 })
        (some "new") (TokenResult.ok "t")).1.ws.map Sock.oncloseRoom
      = some (some "new")
    ∧ (HubPublisher.dispatchOpen (fun _ => true)
        (HubPublisher.connectStep
          ({ (HubPublisher.init : HubState Nat) with
              currentRoom := some "old", queue := [7], alarm := some 2000 })
          (some "new") (TokenResult.ok "t")).1).2 = [7] := by
  decide

/-- Claim C4 (amended): calling connect with a room different from the
currently targeted room cancels the prior cycle — the prior socket is
closed with its close handler detached, the retry alarm is cleared,
retryCount and authErrorBackoff are reset, the new room is targeted
(so a later alarm firing reconnects to the new room, never the old),
and a close event delivered to the torn-down socket changes nothing —
and calling connect with the same room while the socket is Open is a
no-op.  However the outbound queue is NOT cleared on the switch:
messages queued while the old room was targeted remain queued and are
flushed to the new room's socket when it opens. -/
theorem C4_room_switch_amended (s : HubState Nat) (rid t : String)
    (hswitch : s.currentRoom ≠ some rid) :
    (HubPublisher.connectStep s (some rid) (TokenResult.ok t)).1.currentRoom = some rid
    ∧ (HubPublisher.connectStep s (some rid) (TokenResult.ok t)).1.retryCount = 0
    ∧ (HubPublisher.connectStep s (some rid) (TokenResult.ok t)).1.authErrorBackoff = false
    ∧ (HubPublisher.connectStep s (some rid) (TokenResult.ok t)).1.alarm = none
    ∧ (HubPublisher.connectStep s (some rid) (TokenResult.ok t)).1.ws
      = some { readyState := ReadyState.Connecting, oncloseRoom := some rid }
    ∧ (HubPublisher.connectStep s (some rid) (TokenResult.ok t)).1.queue = s.queue
    ∧ (HubPublisher.connectStep s (some rid) (TokenResult.ok t)).2
      = s.ws.map (fun sock : Sock =>
          { sock with oncloseRoom := none, readyState := ReadyState.Closed })
    ∧ (∀ sock', (HubPublisher.connectStep s (some rid) (TokenResult.ok t)).2 = some sock' →
        HubPublisher.dispatchClose
          (HubPublisher.connectStep s (some rid) (TokenResult.ok t)).1 sock'
        = (HubPublisher.connectStep s (some rid) (TokenResult.ok t)).1)
    ∧ (HubPublisher.dispatchOpen (fun _ => true)
        (HubPublisher.connectStep s (some rid) (TokenResult.ok t)).1).2 = s.queue
    ∧ (∀ (s' : HubState Nat) (rid' : String) (sock' : Sock) (tok' : TokenResult),
        s'.currentRoom = some rid' → s'.ws = some sock' →
        sock'.readyState = ReadyState.Open →
        HubPublisher.connectStep s' (some rid') tok' = (s', none)) := by
  obtain ⟨h1, h2⟩ := connectStep_switch_ok_eq s rid t hswitch
  refine ⟨by rw [h1], by rw [h1], by rw [h1], by rw [h1], by rw [h1], by rw [h1],
          h2, ?_, ?_, ?_⟩
  · intro sock' hs'
    rw [h2] at hs'
    cases hws : s.ws with
    | none => rw [hws] at hs'; exact absurd hs' (by simp)
    | some sock =>
        rw [hws] at hs'
        simp only [Option.map_some', Option.some.injEq] at hs'
        apply dispatchClose_none
        rw [← hs']
  · rw [h1]
    simp [HubPublisher.dispatchOpen, HubPublisher.flushQueue, flushLoop_all_true]
  · intro s' rid' sock' tok' hcur hws hopen
    have hc : s'.currentRoom = some rid'
        ∧ s'.ws.map Sock.readyState = some ReadyState.Open := by
      refine ⟨hcur, ?_⟩
      rw [hws]
      simp [hopen]
    simp only [HubPublisher.connectStep, if_pos hc]

/-- Witness for C4 (amended): switch from room "old" (one queued
message, live socket, pending alarm) to room "new". -/
theorem C4_room_switch_amended_witness :
    (HubPublisher.connectStep
        ({ (HubPublisher.init : HubState Nat) with
            currentRoom := some "old", queue := [7], alarm := some 2000,
            ws := some { readyState := ReadyState.Open, oncloseRoom := some "old" } })
        (some "new") (TokenResult.ok "t")).1.currentRoom = some "new"
    ∧ (HubPublisher.connectStep
        ({ (HubPublisher.init : HubState Nat) with
            currentRoom := some "old", queue := [7], alarm := some 2000,
            ws := some { readyState := ReadyState.Open, oncloseRoom := some "old" } })
        (some "new") (TokenResult.ok "t")).1.retryCount = 0
    ∧ (HubPublisher.connectStep
        ({ (HubPublisher.init : HubState Nat) with
            currentRoom := some "old", queue := [7], alarm := some 2000,
            ws := some { readyState := ReadyState.Open, oncloseRoom := some "old" } })
        (some "new") (TokenResult.ok "t")).1.authErrorBackoff = false
    ∧ (HubPublisher.connectStep
        ({ (HubPublisher.init : HubState Nat) with
            currentRoom := some "old", queue := [7], alarm := some 2000,
            ws := some { readyState := ReadyState.Open, oncloseRoom := some "old" } })
        (some "new") (TokenResult.ok "t")).1.alarm = none
    ∧ (HubPublisher.connectStep
        ({ (HubPublisher.init : HubState Nat) with
            currentRoom := some "old", queue := [7], alarm := some 2000,
            ws := some { readyState := ReadyState.Open, oncloseRoom := some "old" } })
        (some "new") (TokenResult.ok "t")).1.ws
      = some { readyState := ReadyState.Connecting, oncloseRoom := some "new" }
    ∧ (HubPublisher.connectStep
        ({ (HubPublisher.init : HubState Nat) with
            currentRoom := some "old", queue := [7], alarm := some 2000,
            ws := some { readyState := ReadyState.Open, oncloseRoom := some "old" } })
        (some "new") (TokenResult.ok "t")).1.queue
      = ({ (HubPublisher.init : HubState Nat) with
            currentRoom := some "old", queue := [7], alarm := some 2000,
            ws := some { readyState := ReadyState.Open, oncloseRoom := some "old" } }).queue
    ∧ (HubPublisher.connectStep
        ({ (HubPublisher.init : HubState Nat) with
            currentRoom := some "old", queue := [7], alarm := some 2000,
            ws := some { readyState := ReadyState.Open, oncloseRoom := some "old" } })
        (some "new") (TokenResult.ok "t")).2
      = ({ (HubPublisher.init : HubState Nat) with
            currentRoom := some "old", queue := [7], alarm := some 2000,
            ws := some { readyState := ReadyState.Open, oncloseRoom := some "old" } }).ws.map
          (fun sock : Sock =>
            { sock with oncloseRoom := none, readyState := ReadyState.Closed })
    ∧ (∀ sock', (HubPublisher.connectStep
        ({ (HubPublisher.init : HubState Nat) with
            currentRoom := some "old", queue := [7], alarm := some 2000,
            ws := some { readyState := ReadyState.Open, oncloseRoom := some "old" } })
        (some "new") (TokenResult.ok "t")).2 = some sock' →
        HubPublisher.dispatchClose
          (HubPublisher.connectStep
            ({ (HubPublisher.init : HubState Nat) with
                currentRoom := some "old", queue := [7], alarm := some 2000,
                ws := some { readyState := ReadyState.Open, oncloseRoom := some "old" } })
            (some "new") (TokenResult.ok "t")).1 sock'
        = (HubPublisher.connectStep
            ({ (HubPublisher.init : HubState Nat) with
                currentRoom := some "old", queue := [7], alarm := some 2000,
                ws := some { readyState := ReadyState.Open, oncloseRoom := some "old" } })
            (some "new") (TokenResult.ok "t")).1)
    ∧ (HubPublisher.dispatchOpen (fun _ => true)
        (HubPublisher.connectStep
          ({ (HubPublisher.init : HubState Nat) with
              currentRoom := some "old", queue := [7], alarm := some 2000,
              ws := some { readyState := ReadyState.Open, oncloseRoom := some "old" } })
          (some "new") (TokenResult.ok "t")).1).2
      = ({ (HubPublisher.init : HubState Nat) with
            currentRoom := some "old", queue := [7], alarm := some 2000,
            ws := some { readyState := ReadyState.Open, oncloseRoom := some "old" } }).queue
    ∧ (∀ (s' : HubState Nat) (rid' : String) (sock' : Sock) (tok' : TokenResult),
        s'.currentRoom = some rid' → s'.ws = some sock' →
        sock'.readyState = ReadyState.Open →
        HubPublisher.connectStep s' (some rid') tok' = (s', none)) :=
  C4_room_switch_amended
    ({ (HubPublisher.init : HubState Nat) with
        currentRoom := some "old", queue := [7], alarm := some 2000,
        ws := some { readyState := ReadyState.Open, oncloseRoom := some "old" } })
    "new" "t" (by decide)

/-- Claim C7 counterexample: with the socket Open and the queue empty
(well below capacity 100), `publish` on an envelope whose
`JSON.stringify` fails silently discards it — the outer try/catch
swallows the serialization error before any send or enqueue — so the
claimed fall-back-to-enqueue does not happen. -/
theorem C7_counterexample :
    HubPublisher.publish (fun _ => false) true
      ({ (HubPublisher.init : HubState Nat) with
          currentRoom := some "r",
          ws := some { readyState := ReadyState.Open, oncloseRoom := some "r" } })
      5
      = (({ (HubPublisher.init : HubState Nat) with
          currentRoom := some "r",
          ws := some { readyState := ReadyState.Open, oncloseRoom := some "r" } }), [])
    ∧ ({ (HubPublisher.init : HubState Nat) with
          currentRoom := some "r",
          ws := some { readyState := ReadyState.Open,
                       oncloseRoom := some "r" } }).queue.length < QUEUE_CAP := by
  decide

/-- Claim C7 (amended): for an envelope whose serialization succeeds,
`publish` behaves as claimed — with the socket Open a direct send is
attempted and a transport failure falls back to enqueueing (capacity
100, evict oldest); with the socket absent or not Open the envelope is
enqueued directly; and the envelope is never discarded (it ends up
either sent or in the queue).  An envelope whose serialization fails,
however, is silently discarded even when the queue is below
capacity. -/
theorem C7_publish_amended (s : HubState Nat) (serializeOk : Nat → Bool)
    (sendOk : Bool) (msg : Nat) (hser : serializeOk msg = true) :
    (s.ws.map Sock.readyState = some ReadyState.Open → sendOk = true →
        HubPublisher.publish serializeOk sendOk s msg = (s, [msg]))
    ∧ (s.ws.map Sock.readyState = some ReadyState.Open → sendOk = false →
        HubPublisher.publish serializeOk sendOk s msg
          = (HubPublisher.enqueue s msg, []))
    ∧ (¬ s.ws.map Sock.readyState = some ReadyState.Open →
        HubPublisher.publish serializeOk sendOk s msg
          = (HubPublisher.enqueue s msg, []))
    ∧ (msg ∈ (HubPublisher.publish serializeOk sendOk s msg).2
        ∨ msg ∈ (HubPublisher.publish serializeOk sendOk s msg).1.queue)
    ∧ (∀ (s' : HubState Nat) (m' : Nat) (serializeOk' : Nat → Bool) (sendOk' : Bool),
        serializeOk' m' = false →
        HubPublisher.publish serializeOk' sendOk' s' m' = (s', [])) := by
  have hmem : msg ∈ pushEvict QUEUE_CAP s.queue msg :=
    mem_pushEvict_self (by decide) s.queue msg
  refine ⟨?_, ?_, ?_, ?_, ?_⟩
  · intro hopen hsend
    cases hws : s.ws with
    | none => rw [hws] at hopen; exact absurd hopen (by simp)
    | some sock =>
        rw [hws] at hopen
        simp only [Option.map_some', Option.some.injEq] at hopen
        simp [HubPublisher.publish, hser, hws, hopen, hsend]
  · intro hopen hsend
    cases hws : s.ws with
    | none => rw [hws] at hopen; exact absurd hopen (by simp)
    | some sock =>
        rw [hws] at hopen
        simp only [Option.map_some', Option.some.injEq] at hopen
        simp [HubPublisher.publish, hser, hws, hopen, hsend]
  · intro hopen
    cases hws : s.ws with
    | none => simp [HubPublisher.publish, hser, hws]
    | some sock =>
        rw [hws] at hopen
        have hno : ¬ sock.readyState = ReadyState.Open := by
          intro hc
          exact hopen (by simp [hc])
        simp [HubPublisher.publish, hser, hws, hno]
  · cases hws : s.ws with
    | none =>
        right
        simp only [HubPublisher.publish, hser, if_true, hws]
        exact hmem
    | some sock =>
        by_cases hrs : sock.readyState = ReadyState.Open
        · cases hsend : sendOk
          · right
            simp only [HubPublisher.publish, hser, if_true, hws, hrs, if_pos rfl]
            simp only [Bool.false_eq_true, if_false]
            exact hmem
          · left
            simp [HubPublisher.publish, hser, hws, hrs]
        · right
          simp only [HubPublisher.publish, hser, if_true, hws]
          rw [if_neg hrs]
          exact hmem
  · intro s' m' serializeOk' sendOk' hser'
    simp [HubPublisher.publish, hser']

/-- Witness for C7 (amended): a serializable message published on an
open socket whose send fails is enqueued, not dropped. -/
theorem C7_publish_amended_witness :
    (({ (HubPublisher.init : HubState Nat) with
        currentRoom := some "r",
        ws := some { readyState := ReadyState.Open,
                     oncloseRoom := some "r" } } : HubState Nat).ws.map Sock.readyState
        = some ReadyState.Open → false = true →
        HubPublisher.publish (fun _ => true) false
          ({ (HubPublisher.init : HubState Nat) with
              currentRoom := some "r",
              ws := some { readyState := ReadyState.Open, oncloseRoom := some "r" } }) 5
          = (({ (HubPublisher.init : HubState Nat) with
              currentRoom := some "r",
              ws := some { readyState := ReadyState.Open,
                           oncloseRoom := some "r" } }), [5]))
    ∧ (({ (HubPublisher.init : HubState Nat) with
        currentRoom := some "r",
        ws := some { readyState := ReadyState.Open,
                     oncloseRoom := some "r" } } : HubState Nat).ws.map Sock.readyState
        = some ReadyState.Open → false = false →
        HubPublisher.publish (fun _ => true) false
          ({ (HubPublisher.init : HubState Nat) with
              currentRoom := some "r",
              ws := some { readyState := ReadyState.Open, oncloseRoom := some "r" } }) 5
          = (HubPublisher.enqueue
              ({ (HubPublisher.init : HubState Nat) with
                  currentRoom := some "r",
                  ws := some { readyState := ReadyState.Open,
                               oncloseRoom := some "r" } }) 5, []))
    ∧ (¬ ({ (HubPublisher.init : HubState Nat) with
        currentRoom := some "r",
        ws := some { readyState := ReadyState.Open,
                     oncloseRoom := some "r" } } : HubState Nat).ws.map Sock.readyState
        = some ReadyState.Open →
        HubPublisher.publish (fun _ => true) false
          ({ (HubPublisher.init : HubState Nat) with
              currentRoom := some "r",
              ws := some { readyState := ReadyState.Open, oncloseRoom := some "r" } }) 5
          = (HubPublisher.enqueue
              ({ (HubPublisher.init : HubState Nat) with
                  currentRoom := some "r",
                  ws := some { readyState := ReadyState.Open,
                               oncloseRoom := some "r" } }) 5, []))
    ∧ (5 ∈ (HubPublisher.publish (fun _ => true) false
          ({ (HubPublisher.init : HubState Nat) with
              currentRoom := some "r",
              ws := some { readyState := ReadyState.Open,
                           oncloseRoom := some "r" } }) 5).2
        ∨ 5 ∈ (HubPublisher.publish (fun _ => true) false
          ({ (HubPublisher.init : HubState Nat) with
              currentRoom := some "r",
              ws := some { readyState := ReadyState.Open,
                           oncloseRoom := some "r" } }) 5).1.queue)
    ∧ (∀ (s' : HubState Nat) (m' : Nat) (serializeOk' : Nat → Bool) (sendOk' : Bool),
        serializeOk' m' = false →
        HubPublisher.publish serializeOk' sendOk' s' m' = (s', [])) :=
  C7_publish_amended
    ({ (HubPublisher.init : HubState Nat) with
        currentRoom := some "r",
        ws := some { readyState := ReadyState.Open, oncloseRoom := some "r" } })
    (fun _ => true) false 5 rfl

/-- Claim C8: an unsolicited socket close schedules a retry targeting
the same room, the installed `onerror` body itself changes nothing (and
the platform always follows an error on an established socket with a
close event, so an error also ends in a scheduled retry), whereas an
explicit `disconnect()` cancels the durable retry alarm and detaches
the socket's close handler before closing, so a close event delivered
to the torn-down socket after deliberate teardown schedules nothing. -/
theorem C8_close_retries_disconnect_does_not (s : HubState Nat) (sock : Sock)
    (room : String) (hws : s.ws = some sock)
    (hroom : sock.oncloseRoom = some room)
    (hcur : s.currentRoom = some room) (hrc : s.retryCount < MAX_RETRIES) :
    (HubPublisher.dispatchClose s sock).alarm
      = some (HubPublisher.hubBackoff (s.retryCount + 1))
    ∧ (HubPublisher.dispatchClose s sock).retryCount = s.retryCount + 1
    ∧ (HubPublisher.dispatchClose s sock).currentRoom = some room
    ∧ (HubPublisher.dispatchClose s sock).ws = none
    ∧ HubPublisher.dispatchClose (HubPublisher.dispatchError s sock) sock
        = HubPublisher.dispatchClose s sock
    ∧ (HubPublisher.disconnect s).1.alarm = none
    ∧ (HubPublisher.disconnect s).2
        = some { sock with oncloseRoom := none, readyState := ReadyState.Closed }
    ∧ (∀ sock', (HubPublisher.disconnect s).2 = some sock' →
        HubPublisher.dispatchClose (HubPublisher.disconnect s).1 sock'
          = (HubPublisher.disconnect s).1) := by
  have hnle : ¬ MAX_RETRIES ≤ s.retryCount := by omega
  have hdc : HubPublisher.dispatchClose s sock
      = { s with isConnecting := false, ws := none,
                 retryCount := s.retryCount + 1,
                 alarm := some (HubPublisher.hubBackoff (s.retryCount + 1)) } := by
    unfold HubPublisher.dispatchClose
    rw [hroom]
    simp [HubPublisher.scheduleRetry, HubPublisher.clearRetryAlarm, hnle]
  have hd2 : (HubPublisher.disconnect s).2
      = some { sock with oncloseRoom := none, readyState := ReadyState.Closed } := by
    simp [HubPublisher.disconnect, HubPublisher.clearRetryAlarm, hws]
  refine ⟨by rw [hdc], by rw [hdc], by rw [hdc]; exact hcur, by rw [hdc], rfl,
          ?_, hd2, ?_⟩
  · simp [HubPublisher.disconnect, HubPublisher.clearRetryAlarm, hws]
  · intro sock' hs'
    rw [hd2] at hs'
    simp only [Option.some.injEq] at hs'
    apply dispatchClose_none
    rw [← hs']

/-- Witness for C8: a live Open socket for room "r" with retryCount 0. -/
theorem C8_close_retries_disconnect_does_not_witness :
    (HubPublisher.dispatchClose
        ({ (HubPublisher.init : HubState Nat) with
            currentRoom := some "r",
            ws := some { readyState := ReadyState.Open, oncloseRoom := some "r" } })
        { readyState := ReadyState.Open, oncloseRoom := some "r" }).alarm
      = some (HubPublisher.hubBackoff
          (({ (HubPublisher.init : HubState Nat) with
              currentRoom := some "r",
              ws := some { readyState := ReadyState.Open,
                           oncloseRoom := some "r" } }).retryCount + 1))
    ∧ (HubPublisher.dispatchClose
        ({ (HubPublisher.init : HubState Nat) with
            currentRoom := some "r",
            ws := some { readyState := ReadyState.Open, oncloseRoom := some "r" } })
        { readyState := ReadyState.Open, oncloseRoom := some "r" }).retryCount
      = ({ (HubPublisher.init : HubState Nat) with
            currentRoom := some "r",
            ws := some { readyState := ReadyState.Open,
                         oncloseRoom := some "r" } }).retryCount + 1
    ∧ (HubPublisher.dispatchClose
        ({ (HubPublisher.init : HubState Nat) with
            currentRoom := some "r",
            ws := some { readyState := ReadyState.Open, oncloseRoom := some "r" } })
        { readyState := ReadyState.Open, oncloseRoom := some "r" }).currentRoom
      = some "r"
    ∧ (HubPublisher.dispatchClose
        ({ (HubPublisher.init : HubState Nat) with
            currentRoom := some "r",
            ws := some { readyState := ReadyState.Open, oncloseRoom := some "r" } })
        { readyState := ReadyState.Open, oncloseRoom := some "r" }).ws = none
    ∧ HubPublisher.dispatchClose
        (HubPublisher.dispatchError
          ({ (HubPublisher.init : HubState Nat) with
              currentRoom := some "r",
              ws := some { readyState := ReadyState.Open, oncloseRoom := some "r" } })
          { readyState := ReadyState.Open, oncloseRoom := some "r" })
        { readyState := ReadyState.Open, oncloseRoom := some "r" }
      = HubPublisher.dispatchClose
          ({ (HubPublisher.init : HubState Nat) with
              currentRoom := some "r",
              ws := some { readyState := ReadyState.Open, oncloseRoom := some "r" } })
          { readyState := ReadyState.Open, oncloseRoom := some "r" }
    ∧ (HubPublisher.disconnect
        ({ (HubPublisher.init : HubState Nat) with
            currentRoom := some "r",
            ws := some { readyState := ReadyState.Open,
                         oncloseRoom := some "r" } })).1.alarm = none
    ∧ (HubPublisher.disconnect
        ({ (HubPublisher.init : HubState Nat) with
            currentRoom := some "r",
            ws := some { readyState := ReadyState.Open,
                         oncloseRoom := some "r" } })).2
      = some { readyState := ReadyState.Closed, oncloseRoom := none }
    ∧ (∀ sock', (HubPublisher.disconnect
        ({ (HubPublisher.init : HubState Nat) with
            currentRoom := some "r",
            ws := some { readyState := ReadyState.Open,
                         oncloseRoom := some "r" } })).2 = some sock' →
        HubPublisher.dispatchClose
          (HubPublisher.disconnect
            ({ (HubPublisher.init : HubState Nat) with
                currentRoom := some "r",
                ws := some { readyState := ReadyState.Open,
                             oncloseRoom := some "r" } })).1 sock'
          = (HubPublisher.disconnect
            ({ (HubPublisher.init : HubState Nat) with
                currentRoom := some "r",
                ws := some { readyState := ReadyState.Open,
                             oncloseRoom := some "r" } })).1) :=
  C8_close_retries_disconnect_does_not
    ({ (HubPublisher.init : HubState Nat) with
        currentRoom := some "r",
        ws := some { readyState := ReadyState.Open, oncloseRoom := some "r" } })
    { readyState := ReadyState.Open, oncloseRoom := some "r" }
    "r" rfl rfl rfl (by decide)

end AutoRange
